import Mathlib

/-!
Verification of the era-compiler-llvm-builder core against its
specification.

Shallow embedding of the builder's utilities (src/utils.rs) and the
aarch64-macos platform builder (src/platforms/aarch64_macos.rs).

External effects (environment variables, subprocess spawning, path
resolution) are made explicit: the environment is a record of the two
mode flags, and the outside world is a function from commands to spawn
outcomes.  Each embedded operation returns both its observable effect
trace and its result, so that claims about "no subprocess is spawned"
or "no path resolution occurs" are statements about the trace.

Parts of the repository that the claims depend on but whose source is
not included (the shared option lists of src/platforms/shared.rs, the
BuildType and Platform enumerations, the LLVMPath resolver, the Lock
record and its TOML serialization, and the retry behaviour of the
external downloader crate) are modelled from the specification; each
such definition says so in its doc comment.
-/

namespace Builder

/-- The environment toggles read by the process runner:
`VERBOSE` and `DRY_RUN` (presence of the variable enables the mode). -/
structure Env where
  verbose : Bool
  dryRun : Bool
deriving DecidableEq, Repr

/-- A subprocess invocation: program, arguments, optional working
directory and optional piped stdin. -/
structure Cmd where
  program : String
  args : List String
  currentDir : Option String := none
  stdinPipe : Option String := none
deriving DecidableEq, Repr

/-- The outcome of attempting to spawn a command: either the executable
could not be started at all, or the process ran and exited with a status
code (0 = success) and produced some stdout text. -/
inductive SpawnOutcome where
  | spawnError (msg : String)
  | exited (code : Nat) (stdout : String)
deriving DecidableEq, Repr

/-- The outside world: what happens when a given command is spawned. -/
def World : Type := Cmd → SpawnOutcome

/-- The observable behaviour of one embedded operation: the list of
commands whose spawning was attempted, the diagnostic lines printed,
and the result. -/
structure RunResult (α : Type) where
  spawned : List Cmd
  output : List String
  result : Except String α
deriving Repr

/-- Embedding of `utils::command` (src/utils.rs:48-63).  If `VERBOSE` is
set it prints the description and the command; if `DRY_RUN` is set it
prints a notice and returns `Ok` without spawning; otherwise it spawns
the command synchronously, fails with `<description> process: <error>`
when the executable cannot be started, fails with `<description> failed`
when the process exits with non-zero status, and returns `Ok` otherwise. -/
def command (env : Env) (world : World) (c : Cmd) (description : String) :
    RunResult Unit :=
  let verboseOut :=
    if env.verbose then
      ["description: " ++ description ++ "; command: " ++ c.program]
    else []
  if env.dryRun then
    { spawned := []
      output := verboseOut ++ ["\tOnly a dry run; not executing the command."]
      result := .ok () }
  else
    match world c with
    | .spawnError e =>
        { spawned := [c]
          output := verboseOut
          result := .error (description ++ " process: " ++ e) }
    | .exited code _ =>
        { spawned := [c]
          output := verboseOut
          result := if code = 0 then .ok () else .error (description ++ " failed") }

/-- The `ninja` command assembled by `utils::ninja` (src/utils.rs:185-193):
`ninja -C <build_dir> [-n] install`, with `-n` appended exactly when
`DRY_RUN` is set. -/
def ninjaCmd (env : Env) (buildDir : String) : Cmd :=
  { program := "ninja"
    args := ["-C", buildDir] ++ (if env.dryRun then ["-n"] else []) ++ ["install"] }

/-- Embedding of `utils::ninja` (src/utils.rs:185-193): build the ninja
command and run it through `utils::command` with description
`Running ninja install`. -/
def ninja (env : Env) (world : World) (buildDir : String) : RunResult Unit :=
  command env world (ninjaCmd env buildDir) "Running ninja install"

/-- The `which <name>` probe used by `utils::check_presence`. -/
def whichCmd (name : String) : Cmd :=
  { program := "which", args := [name] }

/-- Embedding of `utils::check_presence` (src/utils.rs:216-225).  Runs
`which <name>` directly through `Command::status()` — NOT through
`utils::command` — so the spawn happens regardless of the `DRY_RUN` and
`VERBOSE` environment.  Fails with
`Tool <name> is missing. Please install` when `which` exits with
non-zero status. -/
def check_presence (world : World) (name : String) : RunResult Unit :=
  match world (whichCmd name) with
  | .spawnError e =>
      { spawned := [whichCmd name]
        output := []
        result := .error ("`which " ++ name ++ "` process: " ++ e) }
  | .exited code _ =>
      { spawned := [whichCmd name]
        output := []
        result :=
          if code = 0 then .ok ()
          else .error ("Tool `" ++ name ++ "` is missing. Please install") }

/-- The `pkgutil --pkg-info com.apple.pkg.CLTools_Executables` command
spawned by `utils::get_xcode_version` (src/utils.rs:230-255). -/
def pkgutilCmd : Cmd :=
  { program := "pkgutil", args := ["--pkg-info", "com.apple.pkg.CLTools_Executables"] }

/-- The `grep version` command of `utils::get_xcode_version`, with the
stdout of `pkgutil` piped into it. -/
def grepVersionCmd (pkgutilOut : String) : Cmd :=
  { program := "grep", args := ["version"], stdinPipe := some pkgutilOut }

/-- The capture of the regex `version: (\d+)\..*` on a character list:
at the current position the literal `version: ` must be followed by one
or more digits and then a dot; the digit run is captured. -/
def matchVersionAt (l : List Char) : Option (List Char) :=
  if ("version: ".data).isPrefixOf l then
    let rest := l.drop 9
    let ds := rest.takeWhile Char.isDigit
    if ds ≠ [] ∧ (rest.dropWhile Char.isDigit).head? = some '.' then some ds
    else none
  else none

/-- Scan the string left to right for the first position where the
version regex matches, returning the captured digit run. -/
def findVersionCapture : List Char → Option (List Char)
  | [] => none
  | c :: cs =>
    match matchVersionAt (c :: cs) with
    | some ds => some ds
    | none => findVersionCapture cs

/-- Numeric value of a digit run (most significant first). -/
def digitsToNat (ds : List Char) : Nat :=
  ds.foldl (fun a c => 10 * a + (c.toNat - 48)) 0

/-- Embedding of `utils::get_xcode_version` (src/utils.rs:230-255).
Spawns `pkgutil` with piped stdout, pipes it into `grep version`, then
parses the major version out of grep's output with the regex
`version: (\d+)\..*`; a capture whose value does not fit in a `u32`
fails the `parse::<u32>()` step.  Both spawns go directly through
`Command::spawn` / `Command::output`, NOT through `utils::command`. -/
def get_xcode_version (world : World) : RunResult Nat :=
  match world pkgutilCmd with
  | .spawnError e =>
      { spawned := [pkgutilCmd]
        output := []
        result := .error ("`pkgutil` process: " ++ e) }
  | .exited _ pkgOut =>
    match world (grepVersionCmd pkgOut) with
    | .spawnError e =>
        { spawned := [pkgutilCmd, grepVersionCmd pkgOut]
          output := []
          result := .error ("`grep` process: " ++ e) }
    | .exited _ grepOut =>
        { spawned := [pkgutilCmd, grepVersionCmd pkgOut]
          output := []
          result :=
            match findVersionCapture grepOut.data with
            | none => .error ("Failed to parse XCode version: " ++ grepOut)
            | some ds =>
              if digitsToNat ds < 2 ^ 32 then .ok (digitsToNat ds)
              else .error "Failed to parse XCode version: overflow" }

/-- The number of download retries if failed (src/utils.rs:32). -/
def DOWNLOAD_RETRIES : Nat := 3

/-- The number of parallel download requests (src/utils.rs:35). -/
def DOWNLOAD_PARALLEL_REQUESTS : Nat := 1

/-- The download timeout in seconds (src/utils.rs:38). -/
def DOWNLOAD_TIMEOUT_SECONDS : Nat := 300

/-- One HTTP transfer attempt: either a response carrying a status code,
or a connection-level failure. -/
inductive Transfer where
  | response (status : Nat)
  | connError (msg : String)
deriving DecidableEq, Repr

/-- Modelled from the spec: the external `downloader` crate (its HTTP
transport is out of the repository's scope) retries a failed transfer —
a connection failure or a non-OK status — up to the configured retry
count, stopping early on an HTTP 200, and reports per URL the final
HTTP status, or the final connection error as a failed summary.
`net i` is the outcome of attempt number `i`; the result is the number
of attempts made together with the summary. -/
def downloaderAttempts (url : String) (net : Nat → Transfer) :
    Nat → Nat → Nat × Except String (List (String × Nat))
  | i, 0 => (i, .error "downloader invoked with zero attempts")
  | i, 1 =>
      (i + 1,
        match net i with
        | .response s => .ok [(url, s)]
        | .connError e => .error e)
  | i, n + 2 =>
      match net i with
      | .response 200 => (i + 1, .ok [(url, 200)])
      | _ => downloaderAttempts url net (i + 1) (n + 1)

/-- The downloader configured by `utils::download` (src/utils.rs:69-76):
serialized requests with `DOWNLOAD_RETRIES` attempts. -/
def downloaderRun (url : String) (net : Nat → Transfer) :
    Nat × Except String (List (String × Nat)) :=
  downloaderAttempts url net 0 DOWNLOAD_RETRIES

/-- The per-URL status check of `utils::download` (src/utils.rs:78-84):
the first status different from HTTP 200 aborts with
`<url> failed with HTTP code: <status>`. -/
def checkStatuses : List (String × Nat) → Except String Unit
  | [] => .ok ()
  | (u, s) :: rest =>
      if s ≠ 200 then .error (u ++ " failed with HTTP code: " ++ toString s)
      else checkStatuses rest

/-- Embedding of `utils::download` (src/utils.rs:68-87): run the
downloader on the single URL, turn a summary-level error into a task
error, then require every per-URL status to equal 200.  Returns the
number of transfer attempts made together with the result; the
destination path takes no part in the control flow. -/
def download (net : Nat → Transfer) (url : String) (path : String) :
    Nat × Except String Unit :=
  let run := downloaderRun url net
  (run.1,
    match run.2 with
    | .error e => .error e
    | .ok statuses => checkStatuses statuses)

/-- Modelled from the spec: the `BuildType` enumeration
{Debug, Release, RelWithDebInfo, MinSizeRel} lives in
src/build_type.rs, which is not included; the spec fixes it as a closed
enumeration whose display form is passed to CMake. -/
inductive BuildType where
  | Debug
  | Release
  | RelWithDebInfo
  | MinSizeRel
deriving DecidableEq, Repr

/-- The display form of a `BuildType`, as interpolated into the
`-DCMAKE_BUILD_TYPE` flag. -/
def BuildType.show : BuildType → String
  | .Debug => "Debug"
  | .Release => "Release"
  | .RelWithDebInfo => "RelWithDebInfo"
  | .MinSizeRel => "MinSizeRel"

/-- Modelled from the spec: the `Platform` enumeration of LLVM backend
targets (display names such as `X86`, `AArch64`) lives in
src/platforms/mod.rs, which is not included; only its display name
enters the flag assembly. -/
structure Platform where
  name : String
deriving DecidableEq, Repr

/-- Modelled from the spec: the shared option lists of
src/platforms/shared.rs, which is not included.  Per §4.2 of the spec,
each boolean toggle contributes a fixed constant subsequence of flags
when enabled and nothing when disabled, and the shared / not-musl /
platform-only lists are fixed constants; their concrete contents are
left abstract here. -/
structure SharedOpts where
  shared : List String
  notMusl : List String
  tests : List String
  coverage : List String
  ccache : List String
  assertions : List String
  macosDupLibs : List String
deriving DecidableEq, Repr

/-- Modelled from the spec: `shared::shared_build_opts_tests` — the
tests toggle contributes its fixed flag list iff enabled. -/
def shared_build_opts_tests (so : SharedOpts) (b : Bool) : List String :=
  if b then so.tests else []

/-- Modelled from the spec: `shared::shared_build_opts_coverage`. -/
def shared_build_opts_coverage (so : SharedOpts) (b : Bool) : List String :=
  if b then so.coverage else []

/-- Modelled from the spec: `shared::shared_build_opts_ccache`. -/
def shared_build_opts_ccache (so : SharedOpts) (b : Bool) : List String :=
  if b then so.ccache else []

/-- Modelled from the spec: `shared::shared_build_opts_assertions`. -/
def shared_build_opts_assertions (so : SharedOpts) (b : Bool) : List String :=
  if b then so.assertions else []

/-- The caller input of `platforms::aarch64_macos::build`
(src/platforms/aarch64_macos.rs:15-23); the target set is represented
by the list its `HashSet` iteration produces. -/
structure BuildInput where
  build_type : BuildType
  targets : List Platform
  enable_tests : Bool
  enable_coverage : Bool
  extra_args : List String
  use_ccache : Bool
  enable_assertions : Bool
deriving DecidableEq, Repr

/-- The `-DLLVM_TARGETS_TO_BUILD` flag
(src/platforms/aarch64_macos.rs:46-54): the targets' display names
joined by `;`. -/
def targetsToBuildFlag (targets : List Platform) : String :=
  "-DLLVM_TARGETS_TO_BUILD='" ++ String.intercalate ";" (targets.map Platform.name) ++ "'"

/-- The build-type flag (src/platforms/aarch64_macos.rs:45). -/
def buildTypeFlag (bt : BuildType) : String :=
  "-DCMAKE_BUILD_TYPE='" ++ bt.show ++ "'"

/-- The install-prefix flag (src/platforms/aarch64_macos.rs:40-44). -/
def installPrefixFlag (targetPath : String) : String :=
  "-DCMAKE_INSTALL_PREFIX='" ++ targetPath ++ "'"

/-- The first `.args([...])` block of the cmake invocation
(src/platforms/aarch64_macos.rs:33-57): source/build/generator flags,
install prefix, build type, target list, enabled projects, and the
macOS deployment-target pin. -/
def cmakeBaseArgs (modulePath buildPath targetPath : String)
    (bt : BuildType) (targets : List Platform) : List String :=
  ["-S", modulePath, "-B", buildPath, "-G", "Ninja",
   installPrefixFlag targetPath,
   buildTypeFlag bt,
   targetsToBuildFlag targets,
   "-DLLVM_ENABLE_PROJECTS='lld'",
   "-DCMAKE_OSX_DEPLOYMENT_TARGET='11.0'"]

/-- The full cmake argument list assembled by
`platforms::aarch64_macos::build` (src/platforms/aarch64_macos.rs:31-73),
in the source's `.args` order: base block, tests toggle, coverage
toggle, shared opts, not-musl shared opts, caller extra args, ccache
toggle, assertions toggle, macOS duplicate-libraries warning flags. -/
def cmakeArgs (so : SharedOpts) (modulePath buildPath targetPath : String)
    (inp : BuildInput) : List String :=
  cmakeBaseArgs modulePath buildPath targetPath inp.build_type inp.targets
    ++ shared_build_opts_tests so inp.enable_tests
    ++ shared_build_opts_coverage so inp.enable_coverage
    ++ so.shared
    ++ so.notMusl
    ++ inp.extra_args
    ++ shared_build_opts_ccache so inp.use_ccache
    ++ shared_build_opts_assertions so inp.enable_assertions
    ++ so.macosDupLibs

/-- The order in which the specification's §4.2 (and claim C2) says the
flags are assembled: (a) generator/source/build/install base flags with
the build type, (b) the target-list flag, (c) shared flags, (d) shared
not-musl flags, (e) caller extra args, (f) the boolean-gated toggles
(tests, coverage, ccache, assertions), (g) the platform-only flags
(macOS duplicate-library warning suppression and the deployment-target
pin).  Written from the claim's words for comparison with `cmakeArgs`. -/
def specOrderCmakeArgs (so : SharedOpts) (modulePath buildPath targetPath : String)
    (inp : BuildInput) : List String :=
  ["-S", modulePath, "-B", buildPath, "-G", "Ninja",
   installPrefixFlag targetPath,
   buildTypeFlag inp.build_type,
   targetsToBuildFlag inp.targets,
   "-DLLVM_ENABLE_PROJECTS='lld'"]
    ++ so.shared
    ++ so.notMusl
    ++ inp.extra_args
    ++ shared_build_opts_tests so inp.enable_tests
    ++ shared_build_opts_coverage so inp.enable_coverage
    ++ shared_build_opts_ccache so inp.use_ccache
    ++ shared_build_opts_assertions so inp.enable_assertions
    ++ (so.macosDupLibs ++ ["-DCMAKE_OSX_DEPLOYMENT_TARGET='11.0'"])

/-- One observable step of the platform builder: a spawn attempt or a
path resolution. -/
inductive Effect where
  | spawn (c : Cmd)
  | resolvePath (component : String)
deriving DecidableEq, Repr

/-- Whether an effect is a path resolution. -/
def Effect.isResolvePath : Effect → Bool
  | .spawn _ => false
  | .resolvePath _ => true

/-- Modelled from the spec: the `LLVMPath` resolver of src/llvm_path.rs,
which is not included.  Per §4.1 it deterministically returns the three
absolute directories used by the builder, failing only when the current
working directory cannot be determined. -/
structure PathWorld where
  llvm_module_llvm : Except String String
  llvm_build_final : Except String String
  llvm_target_final : Except String String

/-- The cmake command of the generate step
(src/platforms/aarch64_macos.rs:31-74). -/
def cmakeCmd (so : SharedOpts) (modulePath buildPath targetPath : String)
    (inp : BuildInput) : Cmd :=
  { program := "cmake"
    args := cmakeArgs so modulePath buildPath targetPath inp }

/-- Embedding of `platforms::aarch64_macos::build`
(src/platforms/aarch64_macos.rs:15-80): check `cmake` and `ninja`
presence, resolve the three paths, run the cmake generate step through
`utils::command`, then run ninja via `utils::ninja`.  Returns the
effect trace together with the result. -/
def build (env : Env) (world : World) (pw : PathWorld) (so : SharedOpts)
    (inp : BuildInput) : List Effect × Except String Unit :=
  let r1 := check_presence world "cmake"
  match r1.result with
  | .error e => (r1.spawned.map Effect.spawn, .error e)
  | .ok _ =>
    let r2 := check_presence world "ninja"
    let t0 := (r1.spawned ++ r2.spawned).map Effect.spawn
    match r2.result with
    | .error e => (t0, .error e)
    | .ok _ =>
      match pw.llvm_module_llvm with
      | .error e => (t0 ++ [.resolvePath "llvm_module_llvm"], .error e)
      | .ok modulePath =>
        let t1 := t0 ++ [.resolvePath "llvm_module_llvm"]
        match pw.llvm_build_final with
        | .error e => (t1 ++ [.resolvePath "llvm_build_final"], .error e)
        | .ok buildPath =>
          let t2 := t1 ++ [.resolvePath "llvm_build_final"]
          match pw.llvm_target_final with
          | .error e => (t2 ++ [.resolvePath "llvm_target_final"], .error e)
          | .ok targetPath =>
            let t3 := t2 ++ [.resolvePath "llvm_target_final"]
            let r3 := command env world
              (cmakeCmd so modulePath buildPath targetPath inp) "LLVM building cmake"
            match r3.result with
            | .error e => (t3 ++ r3.spawned.map Effect.spawn, .error e)
            | .ok _ =>
              let r4 := ninja env world buildPath
              (t3 ++ r3.spawned.map Effect.spawn ++ r4.spawned.map Effect.spawn,
                r4.result)

/-- Modelled from the spec: the `Lock` record of the repository root
crate (not included under src); a persisted descriptor
{url, branch, optional ref}, as used by tests/common/mod.rs:14-18. -/
structure Lock where
  url : String
  branch : String
  ref : Option String
deriving DecidableEq, Repr

/-- TOML basic-string escaping of one character: backslash, double
quote and newline are escaped; every other character stands for
itself. -/
def escapeChar (c : Char) : List Char :=
  if c = '\\' then ['\\', '\\']
  else if c = '"' then ['\\', '"']
  else if c = '\n' then ['\\', 'n']
  else [c]

/-- TOML basic-string escaping of a character list. -/
def escape : List Char → List Char
  | [] => []
  | c :: cs => escapeChar c ++ escape cs

/-- The character denoted by a basic-string escape sequence. -/
def unescapeChar (c : Char) : Char :=
  if c = 'n' then '\n' else c

/-- Parse the body of a TOML basic string: consume characters up to the
first unescaped double quote, un-escaping backslash sequences, and
return the content together with the rest of the input after the
closing quote. -/
def parseQuoted : List Char → Option (List Char × List Char)
  | [] => none
  | c :: rest =>
    if c = '"' then some ([], rest)
    else if c = '\\' then
      match rest with
      | [] => none
      | d :: rest2 => (parseQuoted rest2).map (fun p => (unescapeChar d :: p.1, p.2))
    else (parseQuoted rest).map (fun p => (c :: p.1, p.2))

/-- Expect a literal character sequence at the head of the input and
return the rest, failing otherwise. -/
def expectLit (lit : List Char) (s : List Char) : Option (List Char) :=
  if lit.isPrefixOf s then some (s.drop lit.length) else none

/-- Modelled from the spec: serialization of a `Lock` to the flat
key-value lock-file document (`toml::to_string` in
tests/common/mod.rs:19) — a `url` line, a `branch` line, and a `ref`
line present iff the reference is pinned; string values are written as
escaped basic strings in double quotes. -/
def writeLock (l : Lock) : List Char :=
  "url = \"".data ++ (escape l.url.data ++ ('"' ::
    ("\nbranch = \"".data ++ (escape l.branch.data ++ ('"' ::
      (match l.ref with
       | none => ['\n']
       | some r => "\nref = \"".data ++ (escape r.data ++ ('"' :: ['\n']))))))))

/-- Modelled from the spec: parsing of the lock-file document back into
a `Lock`; the `ref` field is absent exactly when its line is absent. -/
def readLock (s : List Char) : Option Lock :=
  (expectLit "url = \"".data s).bind fun s1 =>
    (parseQuoted s1).bind fun p1 =>
      (expectLit "\nbranch = \"".data p1.2).bind fun s2 =>
        (parseQuoted s2).bind fun p2 =>
          if p2.2 = ['\n'] then
            some { url := ⟨p1.1⟩, branch := ⟨p2.1⟩, ref := none }
          else
            (expectLit "\nref = \"".data p2.2).bind fun s3 =>
              (parseQuoted s3).bind fun p3 =>
                if p3.2 = ['\n'] then
                  some { url := ⟨p1.1⟩, branch := ⟨p2.1⟩, ref := some ⟨p3.1⟩ }
                else none

/-- A Unix path: an absoluteness flag and the list of components.  The
embedding of `std::path::PathBuf` as far as `push` is concerned. -/
structure UnixPath where
  absolute : Bool
  components : List String
deriving DecidableEq, Repr

/-- `PathBuf::push` on Unix: pushing an absolute path replaces the
whole path; pushing a relative path appends its components. -/
def pushPath (base p : UnixPath) : UnixPath :=
  if p.absolute then p
  else { absolute := base.absolute, components := base.components ++ p.components }

/-- Embedding of `utils::absolute_path` (src/utils.rs:198-202): take the
current working directory (which may fail to be determined) and push
the given path onto it. -/
def absolute_path (currentDir : Except String UnixPath) (p : UnixPath) :
    Except String UnixPath :=
  match currentDir with
  | .error e => .error e
  | .ok cwd => .ok (pushPath cwd p)

end Builder

namespace Builder

/-- Helper: `check_presence` on a tool whose `which` probe exits with a
non-zero status reports the missing-tool error. -/
theorem check_presence_missing_eq (world : World) (name : String) (code : Nat)
    (out : String) (hw : world (whichCmd name) = .exited code out) (hc : code ≠ 0) :
    check_presence world name =
      { spawned := [whichCmd name], output := []
        result := .error ("Tool `" ++ name ++ "` is missing. Please install") } := by
  simp [check_presence, hw, hc]

/-- Helper: `check_presence` on a tool whose `which` probe exits with
status zero succeeds. -/
theorem check_presence_ok_eq (world : World) (name : String) (out : String)
    (hw : world (whichCmd name) = .exited 0 out) :
    check_presence world name =
      { spawned := [whichCmd name], output := [], result := .ok () } := by
  simp [check_presence, hw]

/-- C1: for every command input, with the dry-run environment flag set
the process runner's `command` does not spawn the subprocess and
returns success; its only side effect is diagnostic output. -/
theorem command_dry_run_skips_and_succeeds (env : Env) (world : World) (c : Cmd)
    (d : String) (h : env.dryRun = true) :
    (command env world c d).spawned = [] ∧ (command env world c d).result = .ok () := by
  simp [command, h]

/-- Witness for C1 at a concrete input. -/
theorem command_dry_run_skips_and_succeeds_witness :
    (command ⟨false, true⟩ (fun _ => .exited 0 "") ⟨"cmake", ["--version"], none, none⟩
        "LLVM building cmake").spawned = []
      ∧ (command ⟨false, true⟩ (fun _ => .exited 0 "") ⟨"cmake", ["--version"], none, none⟩
        "LLVM building cmake").result = .ok () :=
  command_dry_run_skips_and_succeeds ⟨false, true⟩ (fun _ => .exited 0 "")
    ⟨"cmake", ["--version"], none, none⟩ "LLVM building cmake" rfl

/-- C6: without dry-run, `command` spawns the subprocess synchronously;
a spawn failure yields an error naming the step's description, a
non-zero exit yields the distinct error `<description> failed`, and the
result is `Ok` exactly when the process exits with status zero — the
exit status is the sole success signal. -/
theorem command_run_semantics (env : Env) (world : World) (c : Cmd) (d : String)
    (h : env.dryRun = false) :
    (command env world c d).spawned = [c]
      ∧ (∀ e, world c = .spawnError e →
          (command env world c d).result = .error (d ++ " process: " ++ e))
      ∧ (∀ code out, world c = .exited code out → code ≠ 0 →
          (command env world c d).result = .error (d ++ " failed"))
      ∧ ((command env world c d).result = .ok () ↔ ∃ out, world c = .exited 0 out) := by
  cases hw : world c with
  | spawnError e =>
      refine ⟨by simp [command, h, hw], ?_, ?_, ?_⟩
      · intro e' he
        cases he
        simp [command, h, hw]
      · intro code out he
        cases he
      · simp [command, h, hw]
  | exited code out =>
      refine ⟨by simp [command, h, hw], ?_, ?_, ?_⟩
      · intro e' he
        cases he
      · intro code' out' he hne
        injection he with h1 _
        subst h1
        simp [command, h, hw, hne]
      · by_cases hc : code = 0
        · subst hc
          simp [command, h, hw]
        · simp [command, h, hw, hc]

/-- Witness for C6 at a concrete input. -/
theorem command_run_semantics_witness :
    (command ⟨false, false⟩ (fun _ => .exited 0 "") ⟨"cmake", [], none, none⟩ "gen").spawned
        = [⟨"cmake", [], none, none⟩]
      ∧ (command ⟨false, false⟩ (fun _ => .exited 0 "") ⟨"cmake", [], none, none⟩ "gen").result
        = .ok () := by
  have h := command_run_semantics ⟨false, false⟩ (fun _ => .exited 0 "")
    ⟨"cmake", [], none, none⟩ "gen" rfl
  exact ⟨h.1, h.2.2.2.mpr ⟨"", rfl⟩⟩

/-- C4 counterexample: with the dry-run flag set, the ninja helper does
append `-n` to the assembled command, but it then does NOT execute that
command: the process runner skips it entirely and reports success — the
claim's "still executing that command, rather than skipping execution"
fails at this input. -/
theorem ninja_dry_run_skips_counterexample :
    ("-n" ∈ (ninjaCmd ⟨false, true⟩ "/llvm/build").args)
      ∧ (ninja ⟨false, true⟩ (fun _ => .exited 0 "") "/llvm/build").spawned = []
      ∧ (ninja ⟨false, true⟩ (fun _ => .exited 0 "") "/llvm/build").result = .ok () := by
  refine ⟨by decide, rfl, rfl⟩

/-- C4 amended: when the dry-run flag is set, the install/build step
appends the driver's native preview flag `-n` to the ninja command, but
the command is then handed to the process runner, which skips execution
entirely and reports success. -/
theorem ninja_dry_run_appends_preview_but_skips (env : Env) (world : World)
    (dir : String) (h : env.dryRun = true) :
    (ninjaCmd env dir).args = ["-C", dir, "-n", "install"]
      ∧ (ninja env world dir).spawned = []
      ∧ (ninja env world dir).result = .ok () := by
  refine ⟨by simp [ninjaCmd, h], ?_, ?_⟩ <;> simp [ninja, command, h]

/-- Witness for the amended C4 at a concrete input. -/
theorem ninja_dry_run_appends_preview_but_skips_witness :
    (ninjaCmd ⟨true, true⟩ "/b").args = ["-C", "/b", "-n", "install"]
      ∧ (ninja ⟨true, true⟩ (fun _ => .spawnError "absent") "/b").spawned = []
      ∧ (ninja ⟨true, true⟩ (fun _ => .spawnError "absent") "/b").result = .ok () :=
  ninja_dry_run_appends_preview_but_skips ⟨true, true⟩ (fun _ => .spawnError "absent")
    "/b" rfl

/-- C3 counterexample: with the dry-run flag set, running the platform
builder still spawns a subprocess — the `which cmake` probe of the tool
presence checker goes through `Command::status()` directly, not through
the process runner, so dry-run does not suppress it. -/
theorem check_presence_dry_run_spawn_counterexample :
    Effect.spawn (whichCmd "cmake") ∈
      (build ⟨false, true⟩ (fun _ => .exited 0 "") ⟨.ok "/m", .ok "/b", .ok "/t"⟩
        ⟨[], [], [], [], [], [], []⟩
        ⟨.Release, [⟨"X86"⟩], false, false, [], false, false⟩).1 := by
  decide

/-- C3 amended: not every subprocess execution routes through the
process runner: the tool presence checker and the XCode environment
probe spawn their subprocesses directly, so they spawn even when the
dry-run flag is set, while a command routed through the runner spawns
nothing under dry-run. -/
theorem presence_and_probe_bypass_process_runner (env : Env) (world : World)
    (name : String) (c : Cmd) (d : String) (h : env.dryRun = true) :
    (check_presence world name).spawned = [whichCmd name]
      ∧ (get_xcode_version world).spawned.head? = some pkgutilCmd
      ∧ (command env world c d).spawned = [] := by
  refine ⟨?_, ?_, by simp [command, h]⟩
  · cases hw : world (whichCmd name) <;> simp [check_presence, hw]
  · cases hw : world pkgutilCmd with
    | spawnError e => simp [get_xcode_version, hw]
    | exited code out =>
        cases hw2 : world (grepVersionCmd out) with
        | spawnError e => simp [get_xcode_version, hw, hw2]
        | exited c2 o2 => simp [get_xcode_version, hw, hw2]

/-- Witness for the amended C3 at a concrete input. -/
theorem presence_and_probe_bypass_process_runner_witness :
    (check_presence (fun _ => .exited 0 "") "ninja").spawned = [whichCmd "ninja"]
      ∧ (get_xcode_version (fun _ => .exited 0 "")).spawned.head? = some pkgutilCmd
      ∧ (command ⟨false, true⟩ (fun _ => .exited 0 "") ⟨"ninja", [], none, none⟩
          "install").spawned = [] :=
  presence_and_probe_bypass_process_runner ⟨false, true⟩ (fun _ => .exited 0 "")
    "ninja" ⟨"ninja", [], none, none⟩ "install" rfl

/-- C10: `absolute_path` returns an already-absolute input path
unchanged — `PathBuf::push` replaces the base when given an absolute
path — and prefixes the current working directory only onto relative
inputs. -/
theorem absolute_path_absolute_identity (cwd p : UnixPath) (h : p.absolute = true) :
    absolute_path (.ok cwd) p = .ok p
      ∧ (∀ q : UnixPath, q.absolute = false →
          absolute_path (.ok cwd) q =
            .ok { absolute := cwd.absolute, components := cwd.components ++ q.components }) := by
  constructor
  · simp [absolute_path, pushPath, h]
  · intro q hq
    simp [absolute_path, pushPath, hq]

/-- Witness for C10 at a concrete input. -/
theorem absolute_path_absolute_identity_witness :
    absolute_path (.ok ⟨true, ["home", "user"]⟩) ⟨true, ["opt", "llvm"]⟩
        = .ok ⟨true, ["opt", "llvm"]⟩
      ∧ (∀ q : UnixPath, q.absolute = false →
          absolute_path (.ok ⟨true, ["home", "user"]⟩) q =
            .ok { absolute := true, components := ["home", "user"] ++ q.components }) :=
  absolute_path_absolute_identity ⟨true, ["home", "user"]⟩ ⟨true, ["opt", "llvm"]⟩ rfl

/-- C7: if a required tool (cmake or ninja) is absent, the platform
builder fails with the missing-tool error naming the tool, and its
effect trace contains no path resolution — path resolution happens only
after both presence checks succeed. -/
theorem build_missing_tool_fast_fail (env : Env) (world : World) (pw : PathWorld)
    (so : SharedOpts) (inp : BuildInput) :
    (∀ code out, world (whichCmd "cmake") = .exited code out → code ≠ 0 →
        (build env world pw so inp).2 = .error "Tool `cmake` is missing. Please install"
          ∧ ∀ e ∈ (build env world pw so inp).1, e.isResolvePath = false)
      ∧ (∀ out code' out', world (whichCmd "cmake") = .exited 0 out →
          world (whichCmd "ninja") = .exited code' out' → code' ≠ 0 →
          (build env world pw so inp).2 = .error "Tool `ninja` is missing. Please install"
            ∧ ∀ e ∈ (build env world pw so inp).1, e.isResolvePath = false) := by
  constructor
  · intro code out hw hc
    have h1 := check_presence_missing_eq world "cmake" code out hw hc
    constructor
    · simp [build, h1]
    · simp [build, h1, Effect.isResolvePath]
  · intro out code' out' hw hw2 hc
    have h1 := check_presence_ok_eq world "cmake" out hw
    have h2 := check_presence_missing_eq world "ninja" code' out' hw2 hc
    constructor
    · simp [build, h1, h2]
    · simp [build, h1, h2, Effect.isResolvePath]

/-- Witness for C7 at concrete inputs: one world where `which cmake`
fails, one where only `which ninja` fails. -/
theorem build_missing_tool_fast_fail_witness :
    ((build ⟨false, false⟩ (fun c => if c = whichCmd "cmake" then .exited 1 "" else .exited 0 "")
        ⟨.ok "/m", .ok "/b", .ok "/t"⟩ ⟨[], [], [], [], [], [], []⟩
        ⟨.Release, [⟨"X86"⟩], false, false, [], false, false⟩).2
      = .error "Tool `cmake` is missing. Please install")
    ∧ ((build ⟨false, false⟩ (fun c => if c = whichCmd "ninja" then .exited 1 "" else .exited 0 "")
        ⟨.ok "/m", .ok "/b", .ok "/t"⟩ ⟨[], [], [], [], [], [], []⟩
        ⟨.Release, [⟨"X86"⟩], false, false, [], false, false⟩).2
      = .error "Tool `ninja` is missing. Please install") :=
  ⟨((build_missing_tool_fast_fail ⟨false, false⟩
      (fun c => if c = whichCmd "cmake" then .exited 1 "" else .exited 0 "")
      ⟨.ok "/m", .ok "/b", .ok "/t"⟩ ⟨[], [], [], [], [], [], []⟩
      ⟨.Release, [⟨"X86"⟩], false, false, [], false, false⟩).1 1 ""
      (by decide) (by decide)).1,
   ((build_missing_tool_fast_fail ⟨false, false⟩
      (fun c => if c = whichCmd "ninja" then .exited 1 "" else .exited 0 "")
      ⟨.ok "/m", .ok "/b", .ok "/t"⟩ ⟨[], [], [], [], [], [], []⟩
      ⟨.Release, [⟨"X86"⟩], false, false, [], false, false⟩).2 "" 1 ""
      (by decide) (by decide) (by decide)).1⟩

/-- Helper: when every transfer attempt yields the same non-OK HTTP
response, the modelled downloader makes exactly `fuel` attempts and
reports that status in the summary. -/
theorem downloaderAttempts_const_non_ok (url : String) (net : Nat → Transfer) (s : Nat)
    (hs : s ≠ 200) (hnet : ∀ i, net i = .response s) :
    ∀ fuel i, fuel ≠ 0 →
      downloaderAttempts url net i fuel = (i + fuel, .ok [(url, s)]) := by
  intro fuel
  induction fuel with
  | zero => intro i hne; exact absurd rfl hne
  | succ n ih =>
      intro i _
      cases n with
      | zero => simp [downloaderAttempts, hnet i]
      | succ m =>
          show downloaderAttempts url net i (m + 2) = (i + (m + 2), .ok [(url, s)])
          rw [downloaderAttempts, hnet i]
          split
          · next heq => exact absurd (by injection heq) hs
          · next =>
              rw [ih (i + 1) (Nat.succ_ne_zero m)]
              congr 1
              omega

/-- C5: a download task whose per-URL HTTP status is not 200 — here a
connection that succeeds on every attempt but always returns the same
non-200 code — fails with an error exposing that URL and status code,
no partial result is reported as success, and the failure is reported
only after the configured `DOWNLOAD_RETRIES` (3) attempts are
exhausted. -/
theorem download_non_ok_fails_after_retries (net : Nat → Transfer) (url path : String)
    (s : Nat) (hs : s ≠ 200) (hnet : ∀ i, net i = .response s) :
    download net url path =
      (DOWNLOAD_RETRIES, .error (url ++ " failed with HTTP code: " ++ toString s)) := by
  have h := downloaderAttempts_const_non_ok url net s hs hnet DOWNLOAD_RETRIES 0 (by decide)
  simp [download, downloaderRun, h, checkStatuses, hs]

/-- Witness for C5: an endpoint that always answers HTTP 404. -/
theorem download_non_ok_fails_after_retries_witness :
    download (fun _ => .response 404) "https://git.musl-libc.org/x.tar.gz" "/dest" =
      (DOWNLOAD_RETRIES,
        .error ("https://git.musl-libc.org/x.tar.gz" ++ " failed with HTTP code: " ++ toString 404)) :=
  download_non_ok_fails_after_retries (fun _ => .response 404)
    "https://git.musl-libc.org/x.tar.gz" "/dest" 404 (by decide) (fun _ => rfl)

/-- Helper: a list is a `isPrefixOf` of itself followed by anything. -/
theorem isPrefixOf_append_self (lit rest : List Char) :
    lit.isPrefixOf (lit ++ rest) = true := by
  induction lit with
  | nil => simp [List.isPrefixOf]
  | cons a as ih => simp [List.isPrefixOf, ih]

/-- Helper: `expectLit` consumes exactly the expected literal. -/
theorem expectLit_append (lit rest : List Char) :
    expectLit lit (lit ++ rest) = some rest := by
  simp [expectLit, isPrefixOf_append_self, List.drop_left]

/-- Helper: the one-step unfolding of `parseQuoted` on a cons cell. -/
theorem parseQuoted_cons (c : Char) (rest : List Char) :
    parseQuoted (c :: rest) =
      if c = '"' then some ([], rest)
      else if c = '\\' then
        match rest with
        | [] => none
        | d :: rest2 => (parseQuoted rest2).map (fun p => (unescapeChar d :: p.1, p.2))
      else (parseQuoted rest).map (fun p => (c :: p.1, p.2)) := by
  rw [parseQuoted.eq_def]

/-- Helper: parsing a quoted body undoes escaping: the escaped content
followed by the closing quote parses back to the content, leaving the
rest of the input untouched. -/
theorem parseQuoted_escape (s rest : List Char) :
    parseQuoted (escape s ++ '"' :: rest) = some (s, rest) := by
  induction s with
  | nil => simp [escape, parseQuoted_cons]
  | cons c cs ih =>
      by_cases h1 : c = '\\'
      · subst h1
        simp [escape, escapeChar, parseQuoted_cons, ih, unescapeChar]
      · by_cases h2 : c = '"'
        · subst h2
          simp [escape, escapeChar, parseQuoted_cons, ih, unescapeChar]
        · by_cases h3 : c = '\n'
          · subst h3
            simp [escape, escapeChar, parseQuoted_cons, ih, unescapeChar]
          · simp [escape, escapeChar, parseQuoted_cons, ih, unescapeChar, h1, h2, h3]

/-- C8: writing a `LockRecord` to the lock file and reading it back
yields a record with identical url, branch and ref field values, both
when the ref is present and when it is absent. -/
theorem lock_write_read_roundtrip (l : Lock) : readLock (writeLock l) = some l := by
  obtain ⟨u, b, r⟩ := l
  cases r with
  | none =>
      simp only [writeLock, readLock, expectLit_append, parseQuoted_escape,
        Option.some_bind, if_pos rfl]
      rfl
  | some rv =>
      have h8 : ("\nref = \"".data).length = 8 := rfl
      have hne : "\nref = \"".data ++ (escape rv.data ++ ('"' :: ['\n'])) ≠ ['\n'] := by
        intro hcontra
        have hl := congrArg List.length hcontra
        rw [List.length_append, h8] at hl
        simp at hl
        omega
      simp only [writeLock, readLock, expectLit_append, parseQuoted_escape,
        Option.some_bind, hne, if_neg, if_pos rfl]
      rfl

/-- Helper: two strings differing at some character position differ. -/
theorem string_ne_of_data_at (s t : String) (n : Nat)
    (h : s.data[n]? ≠ t.data[n]?) : s ≠ t := by
  intro he
  exact h (by rw [he])

/-- Helper: strings whose character lists extend two literals that
differ inside their common length are distinct. -/
theorem appended_ne (p₁ p₂ : String) (x₁ x₂ : List Char) (n : Nat)
    (h₁ : n < p₁.data.length) (h₂ : n < p₂.data.length)
    (hne : p₁.data[n]? ≠ p₂.data[n]?) :
    ∀ s t : String, s.data = p₁.data ++ x₁ → t.data = p₂.data ++ x₂ → s ≠ t := by
  intro s t hs ht
  apply string_ne_of_data_at s t n
  rw [hs, ht, List.getElem?_append_left h₁, List.getElem?_append_left h₂]
  exact hne

/-- Helper: decomposition of the build-type flag's characters. -/
theorem buildTypeFlag_data (bt : BuildType) :
    (buildTypeFlag bt).data =
      "-DCMAKE_BUILD_TYPE='".data ++ (bt.show.data ++ "'".data) := by
  simp [buildTypeFlag, String.data_append, List.append_assoc]

/-- Helper: decomposition of the install-prefix flag's characters. -/
theorem installPrefixFlag_data (t : String) :
    (installPrefixFlag t).data =
      "-DCMAKE_INSTALL_PREFIX='".data ++ (t.data ++ "'".data) := by
  simp [installPrefixFlag, String.data_append, List.append_assoc]

/-- Helper: decomposition of the target-list flag's characters. -/
theorem targetsToBuildFlag_data (ts : List Platform) :
    (targetsToBuildFlag ts).data =
      "-DLLVM_TARGETS_TO_BUILD='".data
        ++ ((String.intercalate ";" (ts.map Platform.name)).data ++ "'".data) := by
  simp [targetsToBuildFlag, String.data_append, List.append_assoc]

/-- Helper: the build-type flag differs from any literal that disagrees
with its fixed key inside the key's length. -/
theorem buildTypeFlag_ne_lit (bt : BuildType) (c : String) (n : Nat)
    (h₁ : n < "-DCMAKE_BUILD_TYPE='".data.length) (h₂ : n < c.data.length)
    (hne : "-DCMAKE_BUILD_TYPE='".data[n]? ≠ c.data[n]?) :
    buildTypeFlag bt ≠ c :=
  appended_ne "-DCMAKE_BUILD_TYPE='" c _ [] n h₁ h₂ hne _ _
    (buildTypeFlag_data bt) (by simp)

/-- Helper: the target-list flag differs from any literal that disagrees
with its fixed key inside the key's length. -/
theorem targetsFlag_ne_lit (ts : List Platform) (c : String) (n : Nat)
    (h₁ : n < "-DLLVM_TARGETS_TO_BUILD='".data.length) (h₂ : n < c.data.length)
    (hne : "-DLLVM_TARGETS_TO_BUILD='".data[n]? ≠ c.data[n]?) :
    targetsToBuildFlag ts ≠ c :=
  appended_ne "-DLLVM_TARGETS_TO_BUILD='" c _ [] n h₁ h₂ hne _ _
    (targetsToBuildFlag_data ts) (by simp)

/-- Helper: the build-type flag is never the install-prefix flag. -/
theorem buildTypeFlag_ne_installPrefixFlag (bt : BuildType) (t : String) :
    buildTypeFlag bt ≠ installPrefixFlag t :=
  appended_ne "-DCMAKE_BUILD_TYPE='" "-DCMAKE_INSTALL_PREFIX='" _ _ 8
    (by decide) (by decide) (by decide) _ _
    (buildTypeFlag_data bt) (installPrefixFlag_data t)

/-- Helper: the build-type flag is never the target-list flag. -/
theorem buildTypeFlag_ne_targetsFlag (bt : BuildType) (ts : List Platform) :
    buildTypeFlag bt ≠ targetsToBuildFlag ts :=
  appended_ne "-DCMAKE_BUILD_TYPE='" "-DLLVM_TARGETS_TO_BUILD='" _ _ 2
    (by decide) (by decide) (by decide) _ _
    (buildTypeFlag_data bt) (targetsToBuildFlag_data ts)

/-- Helper: the target-list flag is never the install-prefix flag. -/
theorem targetsFlag_ne_installPrefixFlag (ts : List Platform) (t : String) :
    targetsToBuildFlag ts ≠ installPrefixFlag t :=
  appended_ne "-DLLVM_TARGETS_TO_BUILD='" "-DCMAKE_INSTALL_PREFIX='" _ _ 2
    (by decide) (by decide) (by decide) _ _
    (targetsToBuildFlag_data ts) (installPrefixFlag_data t)

/-- Helper: the target-list flag is never the build-type flag. -/
theorem targetsFlag_ne_buildTypeFlag (ts : List Platform) (bt : BuildType) :
    targetsToBuildFlag ts ≠ buildTypeFlag bt :=
  appended_ne "-DLLVM_TARGETS_TO_BUILD='" "-DCMAKE_BUILD_TYPE='" _ _ 2
    (by decide) (by decide) (by decide) _ _
    (targetsToBuildFlag_data ts) (buildTypeFlag_data bt)

/-- C2 counterexample: at a concrete input (Release build, one target,
one extra flag, all toggles off, all modelled shared lists empty) the
source's assembly order differs from the order the claim states —
the source emits the macOS deployment-target pin inside the leading
block, before the caller-supplied extra flags, while the claim places
all platform-only flags last. -/
theorem cmake_flag_order_spec_counterexample :
    cmakeArgs ⟨[], [], [], [], [], [], []⟩ "/m" "/b" "/t"
        ⟨.Release, [⟨"X86"⟩], false, false, ["-DFOO=1"], false, false⟩
      ≠ specOrderCmakeArgs ⟨[], [], [], [], [], [], []⟩ "/m" "/b" "/t"
        ⟨.Release, [⟨"X86"⟩], false, false, ["-DFOO=1"], false, false⟩ := by
  decide

/-- C2 amended: the platform builder assembles the generator flags in
the fixed order: first the base block — generator/source/build flags,
install prefix, build type, target list, enabled projects, and the
macOS deployment-target pin — then the tests toggle flags, the coverage
toggle flags, the shared flags, the shared not-musl flags, the caller
extra flags verbatim, the ccache toggle flags, the assertions toggle
flags, and finally the macOS duplicate-library warning flags. -/
theorem cmake_flag_order_matches_source (so : SharedOpts) (m b t : String)
    (inp : BuildInput) :
    cmakeArgs so m b t inp =
      ["-S", m, "-B", b, "-G", "Ninja",
        installPrefixFlag t, buildTypeFlag inp.build_type,
        targetsToBuildFlag inp.targets,
        "-DLLVM_ENABLE_PROJECTS='lld'", "-DCMAKE_OSX_DEPLOYMENT_TARGET='11.0'"]
      ++ (if inp.enable_tests then so.tests else [])
      ++ (if inp.enable_coverage then so.coverage else [])
      ++ so.shared ++ so.notMusl ++ inp.extra_args
      ++ (if inp.use_ccache then so.ccache else [])
      ++ (if inp.enable_assertions then so.assertions else [])
      ++ so.macosDupLibs := rfl

/-- C9: for a valid input — non-empty target list without duplicate
names, paths and caller/shared option strings that do not collide with
the two key flags — the composed flag sequence contains the build-type
flag exactly once and the target-list flag exactly once; the
target-list flag's value is the requested platform names joined by the
semicolon separator, each requested name occurring exactly once in the
joined list, and which names occur is independent of the set's
iteration order. -/
theorem cmake_flags_unique_build_type_and_targets
    (so : SharedOpts) (m b t : String) (inp : BuildInput)
    (hne : inp.targets ≠ [])
    (hnd : (inp.targets.map Platform.name).Nodup)
    (hbtp : buildTypeFlag inp.build_type ≠ m ∧ buildTypeFlag inp.build_type ≠ b
      ∧ buildTypeFlag inp.build_type ≠ t)
    (hbto : ∀ x ∈ so.tests ++ so.coverage ++ so.shared ++ so.notMusl ++ so.ccache
        ++ so.assertions ++ so.macosDupLibs ++ inp.extra_args,
        x ≠ buildTypeFlag inp.build_type)
    (htgp : targetsToBuildFlag inp.targets ≠ m ∧ targetsToBuildFlag inp.targets ≠ b
      ∧ targetsToBuildFlag inp.targets ≠ t)
    (htgo : ∀ x ∈ so.tests ++ so.coverage ++ so.shared ++ so.notMusl ++ so.ccache
        ++ so.assertions ++ so.macosDupLibs ++ inp.extra_args,
        x ≠ targetsToBuildFlag inp.targets) :
    (cmakeArgs so m b t inp).count (buildTypeFlag inp.build_type) = 1
      ∧ (cmakeArgs so m b t inp).count (targetsToBuildFlag inp.targets) = 1
      ∧ targetsToBuildFlag inp.targets =
          "-DLLVM_TARGETS_TO_BUILD='"
            ++ String.intercalate ";" (inp.targets.map Platform.name) ++ "'"
      ∧ (∀ p ∈ inp.targets, (inp.targets.map Platform.name).count p.name = 1)
      ∧ (∀ l2 : List Platform, inp.targets.Perm l2 →
          ∀ nm, nm ∈ l2.map Platform.name ↔ nm ∈ inp.targets.map Platform.name) := by
  obtain ⟨hbm, hbb, hbt⟩ := hbtp
  obtain ⟨hgm, hgb, hgt⟩ := htgp
  have notMemB : ∀ (l : List String), (∀ x ∈ l, x ≠ buildTypeFlag inp.build_type) →
      l.count (buildTypeFlag inp.build_type) = 0 := fun l h =>
    List.count_eq_zero.mpr (fun hmem => (h _ hmem) rfl)
  have notMemT : ∀ (l : List String), (∀ x ∈ l, x ≠ targetsToBuildFlag inp.targets) →
      l.count (targetsToBuildFlag inp.targets) = 0 := fun l h =>
    List.count_eq_zero.mpr (fun hmem => (h _ hmem) rfl)
  refine ⟨?_, ?_, rfl, ?_, ?_⟩
  · have nS := buildTypeFlag_ne_lit inp.build_type "-S" 1 (by decide) (by decide) (by decide)
    have nB := buildTypeFlag_ne_lit inp.build_type "-B" 1 (by decide) (by decide) (by decide)
    have nG := buildTypeFlag_ne_lit inp.build_type "-G" 1 (by decide) (by decide) (by decide)
    have nN := buildTypeFlag_ne_lit inp.build_type "Ninja" 0 (by decide) (by decide) (by decide)
    have nL := buildTypeFlag_ne_lit inp.build_type "-DLLVM_ENABLE_PROJECTS='lld'" 2
      (by decide) (by decide) (by decide)
    have nX := buildTypeFlag_ne_lit inp.build_type "-DCMAKE_OSX_DEPLOYMENT_TARGET='11.0'" 8
      (by decide) (by decide) (by decide)
    have nI := buildTypeFlag_ne_installPrefixFlag inp.build_type t
    have nT := buildTypeFlag_ne_targetsFlag inp.build_type inp.targets
    have cbase : (cmakeBaseArgs m b t inp.build_type inp.targets).count
        (buildTypeFlag inp.build_type) = 1 := by
      simp [cmakeBaseArgs, List.count_cons, nS, nB, nG, nN, nL, nX, nI, nT,
        hbm, hbb, hbt]
    have z1 := notMemB so.tests (fun x hx => hbto x (by simp [hx]))
    have z2 := notMemB so.coverage (fun x hx => hbto x (by simp [hx]))
    have z3 := notMemB so.shared (fun x hx => hbto x (by simp [hx]))
    have z4 := notMemB so.notMusl (fun x hx => hbto x (by simp [hx]))
    have z5 := notMemB so.ccache (fun x hx => hbto x (by simp [hx]))
    have z6 := notMemB so.assertions (fun x hx => hbto x (by simp [hx]))
    have z7 := notMemB so.macosDupLibs (fun x hx => hbto x (by simp [hx]))
    have z8 := notMemB inp.extra_args (fun x hx => hbto x (by simp [hx]))
    have zt1 : (shared_build_opts_tests so inp.enable_tests).count
        (buildTypeFlag inp.build_type) = 0 := by
      cases inp.enable_tests <;> simp [shared_build_opts_tests, z1]
    have zt2 : (shared_build_opts_coverage so inp.enable_coverage).count
        (buildTypeFlag inp.build_type) = 0 := by
      cases inp.enable_coverage <;> simp [shared_build_opts_coverage, z2]
    have zt3 : (shared_build_opts_ccache so inp.use_ccache).count
        (buildTypeFlag inp.build_type) = 0 := by
      cases inp.use_ccache <;> simp [shared_build_opts_ccache, z5]
    have zt4 : (shared_build_opts_assertions so inp.enable_assertions).count
        (buildTypeFlag inp.build_type) = 0 := by
      cases inp.enable_assertions <;> simp [shared_build_opts_assertions, z6]
    simp [cmakeArgs, List.count_append, cbase, z3, z4, z7, z8, zt1, zt2, zt3, zt4]
  · have nS := targetsFlag_ne_lit inp.targets "-S" 1 (by decide) (by decide) (by decide)
    have nB := targetsFlag_ne_lit inp.targets "-B" 1 (by decide) (by decide) (by decide)
    have nG := targetsFlag_ne_lit inp.targets "-G" 1 (by decide) (by decide) (by decide)
    have nN := targetsFlag_ne_lit inp.targets "Ninja" 0 (by decide) (by decide) (by decide)
    have nL := targetsFlag_ne_lit inp.targets "-DLLVM_ENABLE_PROJECTS='lld'" 7
      (by decide) (by decide) (by decide)
    have nX := targetsFlag_ne_lit inp.targets "-DCMAKE_OSX_DEPLOYMENT_TARGET='11.0'" 2
      (by decide) (by decide) (by decide)
    have nI := targetsFlag_ne_installPrefixFlag inp.targets t
    have nT := targetsFlag_ne_buildTypeFlag inp.targets inp.build_type
    have cbase : (cmakeBaseArgs m b t inp.build_type inp.targets).count
        (targetsToBuildFlag inp.targets) = 1 := by
      simp [cmakeBaseArgs, List.count_cons, nS, nB, nG, nN, nL, nX, nI, nT,
        hgm, hgb, hgt]
    have z1 := notMemT so.tests (fun x hx => htgo x (by simp [hx]))
    have z2 := notMemT so.coverage (fun x hx => htgo x (by simp [hx]))
    have z3 := notMemT so.shared (fun x hx => htgo x (by simp [hx]))
    have z4 := notMemT so.notMusl (fun x hx => htgo x (by simp [hx]))
    have z5 := notMemT so.ccache (fun x hx => htgo x (by simp [hx]))
    have z6 := notMemT so.assertions (fun x hx => htgo x (by simp [hx]))
    have z7 := notMemT so.macosDupLibs (fun x hx => htgo x (by simp [hx]))
    have z8 := notMemT inp.extra_args (fun x hx => htgo x (by simp [hx]))
    have zt1 : (shared_build_opts_tests so inp.enable_tests).count
        (targetsToBuildFlag inp.targets) = 0 := by
      cases inp.enable_tests <;> simp [shared_build_opts_tests, z1]
    have zt2 : (shared_build_opts_coverage so inp.enable_coverage).count
        (targetsToBuildFlag inp.targets) = 0 := by
      cases inp.enable_coverage <;> simp [shared_build_opts_coverage, z2]
    have zt3 : (shared_build_opts_ccache so inp.use_ccache).count
        (targetsToBuildFlag inp.targets) = 0 := by
      cases inp.use_ccache <;> simp [shared_build_opts_ccache, z5]
    have zt4 : (shared_build_opts_assertions so inp.enable_assertions).count
        (targetsToBuildFlag inp.targets) = 0 := by
      cases inp.enable_assertions <;> simp [shared_build_opts_assertions, z6]
    simp [cmakeArgs, List.count_append, cbase, z3, z4, z7, z8, zt1, zt2, zt3, zt4]
  · intro p hp
    exact List.count_eq_one_of_mem hnd (List.mem_map_of_mem Platform.name hp)
  · intro l2 hperm nm
    exact ((hperm.map Platform.name).mem_iff).symm

/-- Witness for C9: the spec's own scenario — Release build with the
X86 and AArch64 targets, tests and assertions on, one extra flag. -/
theorem cmake_flags_unique_build_type_and_targets_witness :
    (cmakeArgs ⟨["-DS1"], ["-DNM1"], ["-DT1"], ["-DC1"], ["-DH1"], ["-DA1"], ["-DW1"]⟩
        "/r/llvm" "/r/build" "/r/target"
        ⟨.Release, [⟨"X86"⟩, ⟨"AArch64"⟩], true, false, ["-DFOO=1"], false, true⟩).count
      (buildTypeFlag .Release) = 1
    ∧ (cmakeArgs ⟨["-DS1"], ["-DNM1"], ["-DT1"], ["-DC1"], ["-DH1"], ["-DA1"], ["-DW1"]⟩
        "/r/llvm" "/r/build" "/r/target"
        ⟨.Release, [⟨"X86"⟩, ⟨"AArch64"⟩], true, false, ["-DFOO=1"], false, true⟩).count
      (targetsToBuildFlag [⟨"X86"⟩, ⟨"AArch64"⟩]) = 1
    ∧ targetsToBuildFlag [⟨"X86"⟩, ⟨"AArch64"⟩] =
        "-DLLVM_TARGETS_TO_BUILD='"
          ++ String.intercalate ";" (([⟨"X86"⟩, ⟨"AArch64"⟩] : List Platform).map Platform.name)
          ++ "'"
    ∧ (∀ p ∈ ([⟨"X86"⟩, ⟨"AArch64"⟩] : List Platform),
        (([⟨"X86"⟩, ⟨"AArch64"⟩] : List Platform).map Platform.name).count p.name = 1)
    ∧ (∀ l2 : List Platform, ([⟨"X86"⟩, ⟨"AArch64"⟩] : List Platform).Perm l2 →
        ∀ nm, nm ∈ l2.map Platform.name
          ↔ nm ∈ ([⟨"X86"⟩, ⟨"AArch64"⟩] : List Platform).map Platform.name) :=
  cmake_flags_unique_build_type_and_targets
    ⟨["-DS1"], ["-DNM1"], ["-DT1"], ["-DC1"], ["-DH1"], ["-DA1"], ["-DW1"]⟩
    "/r/llvm" "/r/build" "/r/target"
    ⟨.Release, [⟨"X86"⟩, ⟨"AArch64"⟩], true, false, ["-DFOO=1"], false, true⟩
    (by decide) (by decide) (by decide) (by decide) (by decide) (by decide)

end Builder
